import Mathlib

/-!
# svcapp: service lifecycle controller

A shallow embedding of `svcapp/manage_linux.go` (the unit-file backend) and
`svcapp/manage_windows.go` (the control-manager backend).

Go strings are Lean `String`s.  Every interaction with the host (a file system
call, a write, a child process, a service-manager request) is answered by an
environment record and appended to a call log, so that "no host call is made" is a
statement about the log, and a host step that can fail does fail in some
environment.
-/

namespace svcapp

/-- Go `error` values.  `errorString` is a value made by `errors.New` in this
package (compared by identity in Go, here by its constructor and text), `sys` an
error produced by the host, `errno` a `syscall.Errno`. -/
inductive GoError where
  | errorString (msg : String)
  | sys (msg : String)
  | errno (code : Nat)
  deriving DecidableEq

/-- The record `InstallParams` of `install_params.go`. -/
structure InstallParams where
  Name : String
  Executable : String
  Args : String
  DispName : String
  Description : String
  deriving DecidableEq

/-! ## Standard-library functions used by the package -/

/-- Go `unicode.IsSpace`: the ASCII white space, U+0085, U+00A0 and the code points
with the White_Space property. -/
def isSpace (c : Char) : Bool :=
  let n := c.toNat
  n = 0x20 || (0x09 ≤ n && n ≤ 0x0D) || n = 0x85 || n = 0xA0 || n = 0x1680 ||
    (0x2000 ≤ n && n ≤ 0x200A) || n = 0x2028 || n = 0x2029 || n = 0x202F ||
    n = 0x205F || n = 0x3000

/-- Go `strings.TrimSpace`: leading and trailing white space removed. -/
def TrimSpace (s : String) : String :=
  String.mk ((s.data.dropWhile isSpace).reverse.dropWhile isSpace).reverse

/-- Go `strings.Contains`: `substr` occurs somewhere inside `s`. -/
def Contains (s substr : String) : Bool :=
  s.data.tails.any (fun t => substr.data.isPrefixOf t)

/-- The two failures of `strconv.ParseUint`. -/
inductive NumError where
  | ErrSyntax
  | ErrRange
  deriving DecidableEq

/-- The digit loop of `strconv.ParseUint(s, 10, bitSize)`: `n` is the `uint64`
accumulator, `cutoff = maxUint64/10 + 1`, `maxVal = 2^bitSize - 1`.  A byte that is
not a decimal digit is a syntax error (a letter gets a digit value of at least 10,
which is not below the base), an overflow a range error reported with `maxVal`. -/
def parseUintLoop (maxVal : Nat) : List Char → Nat → Nat × Option NumError
  | [], n => (n, none)
  | c :: cs, n =>
    if c.isDigit then
      let d := c.toNat - 48
      if n ≥ (2 ^ 64 - 1) / 10 + 1 then (maxVal, some NumError.ErrRange)
      else
        let n10 := (n * 10) % 2 ^ 64
        let n1 := (n10 + d) % 2 ^ 64
        if n1 < n10 ∨ n1 > maxVal then (maxVal, some NumError.ErrRange)
        else parseUintLoop maxVal cs n1
    else (0, some NumError.ErrSyntax)

/-- Go `strconv.ParseUint(s, 10, bitSize)` for `0 < bitSize ≤ 64`. -/
def ParseUint (s : String) (bitSize : Nat) : Nat × Option NumError :=
  if s = "" then (0, some NumError.ErrSyntax)
  else parseUintLoop (2 ^ bitSize - 1) s.data 0

/-- The scan of `strings.Split(s, sep)` for a one-byte separator: the text is cut
at every occurrence of the separator; `cur` is the piece being read, reversed. -/
def splitLoop (sep : Char) : List Char → List Char → List String
  | [], cur => [String.mk cur.reverse]
  | c :: cs, cur =>
    if c = sep then String.mk cur.reverse :: splitLoop sep cs []
    else splitLoop sep cs (c :: cur)

/-- Go `strings.Split(s, sep)` for a one-byte separator. -/
def Split (s : String) (sep : Char) : List String :=
  splitLoop sep s.data []

/-- Go `strings.Join(elems, sep)`. -/
def Join : List String → String → String
  | [], _ => ""
  | [a], _ => a
  | a :: b :: rest, sep => a ++ sep ++ Join (b :: rest) sep

/-- Value of a string of decimal digits, most significant digit first. -/
def decimalValue (l : List Char) : Nat :=
  l.foldl (fun n c => n * 10 + (c.toNat - 48)) 0

/-- The text is a base-10 unsigned 32-bit integer: it is not empty, every character
is a decimal digit (so there is no sign), and its value is at most 4294967295. -/
def isDecimalUint32 (s : String) : Prop :=
  s ≠ "" ∧ (∀ c ∈ s.data, c.isDigit = true) ∧ decimalValue s.data ≤ 4294967295

instance (s : String) : Decidable (isDecimalUint32 s) := by
  unfold isDecimalUint32
  infer_instance

/-! ## The unit-file backend (`manage_linux.go`) -/

namespace linux

/-- A call that reaches the host. -/
inductive Call where
  | stat (path : String)
  | exec (cmd : String) (args : List String)
  | create (path : String)
  | write (path : String) (text : String)
  | close (path : String)
  | remove (path : String)
  deriving DecidableEq

/-- The answers of the host: the outcome of a child process (its output, or the
error of `Run`/`Output`), of `os.Create`, of a write to an open file and of
`os.Remove`.  `write path text` is the number of characters of `text` that reach the
file: the whole text when the write succeeds, fewer (possibly none) when it fails. -/
structure Env where
  exec : String → List String → Except GoError String
  create : String → Option GoError
  write : String → String → Nat
  remove : String → Option GoError

/-- The host as the package sees it: the files (path and content) and the calls made
so far, oldest first. -/
structure World where
  files : List (String × String)
  calls : List Call
  deriving DecidableEq

/-- Record a host call. -/
def World.log (w : World) (c : Call) : World :=
  { w with calls := w.calls ++ [c] }

/-- Content of the file at `path`, if it exists. -/
def World.read (w : World) (path : String) : Option String :=
  w.files.lookup path

/-- A successful `os.Create`: the file exists and is empty. -/
def World.truncate (w : World) (path : String) : World :=
  { w with files := (path, "") :: w.files.filter (fun f => f.1 != path) }

/-- A write to an open file: the text is appended. -/
def World.append (w : World) (path text : String) : World :=
  { w with files := w.files.map (fun f => if f.1 = path then (f.1, f.2 ++ text) else f) }

/-- A successful `os.Remove`. -/
def World.unlink (w : World) (path : String) : World :=
  { w with files := w.files.filter (fun f => f.1 != path) }

def servicePath (name : String) : String :=
  "/etc/systemd/system/" ++ name ++ ".service"

def isInstalled (name : String) (w : World) : Bool × World :=
  ((w.read (servicePath name)).isSome, w.log (Call.stat (servicePath name)))

def isRunning (env : Env) (name : String) (w : World) : Bool × World :=
  let args := ["--lines=0", "status", name ++ ".service"]
  let w1 := w.log (Call.exec "systemctl" args)
  match env.exec "systemctl" args with
  | Except.error _ => (false, w1)
  | Except.ok output => (Contains output "Active: active", w1)

def ErrAlreadyInstalled : GoError := GoError.errorString "service is already installed"
def ErrNotInstalled : GoError := GoError.errorString "service is not installed"
def ErrInsufficientPrivileges : GoError := GoError.errorString "insufficient privileges"
def ErrUnsupportedSystem : GoError := GoError.errorString "unsupported system"
def ErrInvalidSystemResponse : GoError := GoError.errorString "invalid system response"
def ErrAlreadyRunning : GoError := GoError.errorString "service is already ranning"
def ErrAlreadyStopped : GoError := GoError.errorString "service had already been stopped"

/-- The body of `checkPrivileges` as a function of the outcome of `id -g`. -/
def checkPrivilegesOf (outcome : Except GoError String) : Bool × Option GoError :=
  match outcome with
  | Except.ok output =>
    match ParseUint (TrimSpace output) 32 with
    | (gid, none) =>
      if gid = 0 then (true, none)
      else (false, some ErrInsufficientPrivileges)
    | (_, some _) => (false, some ErrInvalidSystemResponse)
  | Except.error _ => (false, some ErrUnsupportedSystem)

def checkPrivileges (env : Env) (w : World) : (Bool × Option GoError) × World :=
  (checkPrivilegesOf (env.exec "id" ["-g"]), w.log (Call.exec "id" ["-g"]))

/-- The command line that `Install` writes after `ExecStart=`. -/
def installCmd (params : InstallParams) : String :=
  if params.Args ≠ "" then params.Executable ++ (" " ++ params.Args)
  else params.Executable

/-- One `fmt.Fprintf(f, ...)`: the formatted text (a `%s` operand is inserted as it
is) is handed to the host in one write, which appends as many of its characters as
the host accepts; the count and the error that `Fprintf` returns are not looked at by
the caller. -/
def Fprintf (env : Env) (path text : String) (w : World) : World :=
  (w.log (Call.write path text)).append path
    (String.mk (text.data.take (env.write path text)))

def Install (env : Env) (params : InstallParams) (w : World) : Option GoError × World :=
  let (inst, w) := isInstalled params.Name w
  if inst then (some ErrAlreadyInstalled, w)
  else
    let ((ok, err), w) := checkPrivileges env w
    if !ok then (err, w)
    else
      let path := servicePath params.Name
      let w := w.log (Call.create path)
      match env.create path with
      | some err => (some err, w)
      | none =>
        let w := w.truncate path
        let cmd := installCmd params
        let w := Fprintf env path "[Unit]\n" w
        let w := Fprintf env path ("Description=" ++ params.Description ++ "\n\n") w
        let w := Fprintf env path "[Service]\n" w
        let w := Fprintf env path ("ExecStart=" ++ cmd ++ "\n") w
        let w := Fprintf env path "Restart=on-failure\n\n" w
        let w := Fprintf env path "[Install]\n" w
        let w := Fprintf env path "WantedBy=multi-user.target\n" w
        let w := w.log (Call.close path)
        let w := w.log (Call.exec "systemctl" ["daemon-reload"])
        match env.exec "systemctl" ["daemon-reload"] with
        | Except.error err => (some err, w)
        | Except.ok _ =>
          let w := w.log (Call.exec "systemctl" ["enable", params.Name ++ ".service"])
          match env.exec "systemctl" ["enable", params.Name ++ ".service"] with
          | Except.error err => (some err, w)
          | Except.ok _ => (none, w)

def Start (env : Env) (name : String) (w : World) : Option GoError × World :=
  let (inst, w) := isInstalled name w
  if !inst then (some ErrNotInstalled, w)
  else
    let ((ok, err), w) := checkPrivileges env w
    if !ok then (err, w)
    else
      let (run, w) := isRunning env name w
      if run then (some ErrAlreadyRunning, w)
      else
        let w := w.log (Call.exec "systemctl" ["start", name ++ ".service"])
        match env.exec "systemctl" ["start", name ++ ".service"] with
        | Except.error err => (some err, w)
        | Except.ok _ => (none, w)

def Stop (env : Env) (name : String) (w : World) : Option GoError × World :=
  let (inst, w) := isInstalled name w
  if !inst then (some ErrNotInstalled, w)
  else
    let ((ok, err), w) := checkPrivileges env w
    if !ok then (err, w)
    else
      let (run, w) := isRunning env name w
      if !run then (some ErrAlreadyStopped, w)
      else
        let w := w.log (Call.exec "systemctl" ["stop", name ++ ".service"])
        match env.exec "systemctl" ["stop", name ++ ".service"] with
        | Except.error err => (some err, w)
        | Except.ok _ => (none, w)

def Status (env : Env) (name : String) (w : World) : (String × Option GoError) × World :=
  let (inst, w) := isInstalled name w
  if !inst then (("", some ErrNotInstalled), w)
  else
    let ((ok, err), w) := checkPrivileges env w
    if !ok then (("", err), w)
    else
      let (run, w) := isRunning env name w
      if run then (("running", none), w)
      else (("stopped", none), w)

def Uninstall (env : Env) (name : String) (w : World) : Option GoError × World :=
  let (inst, w) := isInstalled name w
  if !inst then (some ErrNotInstalled, w)
  else
    let ((ok, err), w) := checkPrivileges env w
    if !ok then (err, w)
    else
      let w := w.log (Call.exec "systemctl" ["disable", name ++ ".service"])
      match env.exec "systemctl" ["disable", name ++ ".service"] with
      | Except.error err => (some err, w)
      | Except.ok _ =>
        let w := w.log (Call.remove (servicePath name))
        match env.remove (servicePath name) with
        | some err => (some err, w)
        | none => (none, w.unlink (servicePath name))

/-- A host on which `id -g` prints `gid`, `systemctl status` prints `status`, files
can be created, written in full and removed, and a `systemctl` command whose first
argument is listed in `failing` exits with an error. -/
def hostEnv (gid : String) (failing : List String) (status : String) : Env where
  exec := fun cmd args =>
    if cmd = "id" then Except.ok gid
    else if args.head? = some "--lines=0" then Except.ok status
    else if args.head?.any (fun a => failing.contains a) then
      Except.error (GoError.sys "exit status 1")
    else Except.ok ""
  create := fun _ => none
  write := fun _ text => text.length
  remove := fun _ => none

/-- A host like `hostEnv "0\n" [] ""` whose disk is full: a file can be created,
and no character of any write reaches it. -/
def fullDiskEnv : Env :=
  { hostEnv "0\n" [] "" with write := fun _ _ => 0 }

end linux

/-! ## The control-manager backend (`manage_windows.go`) -/

namespace windows

/-- The states of `golang.org/x/sys/windows/svc` (`svc.State` is a `uint32`). -/
abbrev State := Nat

def Stopped : State := 1
def StartPending : State := 2
def StopPending : State := 3
def Running : State := 4
def ContinuePending : State := 5
def PausePending : State := 6
def Paused : State := 7

/-- The record `mgr.Config`, with the fields that `Install` sets
(`mgr.StartAutomatic` is 2). -/
structure Config where
  DisplayName : String
  Description : String
  StartType : Nat
  deriving DecidableEq

/-- A request that reaches the service control manager (or the console). -/
inductive Call where
  | connect
  | disconnect
  | openService (name : String)
  | closeService
  | createService (name exepath : String) (cfg : Config) (args : List String)
  | setRecoveryActions (delaysMs : List Nat) (resetPeriod : Nat)
  | println (text : String)
  | start
  | controlStop
  | query
  | delete
  deriving DecidableEq

/-- The answers of the service control manager.  `control` is the state in the
status that `Control(svc.Stop)` returns, `query k` the state of the `k`-th `Query`
of one operation (counted from 0). -/
structure Env where
  connect : Option GoError
  openService : String → Option GoError
  createService : String → String → Config → List String → Option GoError
  start : Option GoError
  control : Except GoError State
  query : Nat → Except GoError State
  delete : Option GoError

def Install (env : Env) (params : InstallParams) (log : List Call) :
    Option GoError × List Call :=
  let log := log ++ [Call.connect]
  match env.connect with
  | some err => (some err, log)
  | none =>
    let log := log ++ [Call.openService params.Name]
    match env.openService params.Name with
    | none =>
      (some (GoError.errorString "service is already installed"),
        log ++ [Call.closeService, Call.disconnect])
    | some _ =>
      let args := Split params.Args ' '
      let cfg : Config :=
        { DisplayName := params.DispName, Description := params.Description, StartType := 2 }
      let log := log ++ [Call.createService params.Name params.Executable cfg args]
      match env.createService params.Name params.Executable cfg args with
      | some err => (some err, log ++ [Call.println "CreateService failed", Call.disconnect])
      | none =>
        let log := log ++ [Call.setRecoveryActions [5000, 5000, 5000, 60000] 86400]
        (none, log ++ [Call.closeService, Call.disconnect])

def Start (env : Env) (name : String) (log : List Call) : Option GoError × List Call :=
  let log := log ++ [Call.connect]
  match env.connect with
  | some err => (some err, log)
  | none =>
    let log := log ++ [Call.openService name]
    match env.openService name with
    | some err => (some err, log ++ [Call.disconnect])
    | none => (env.start, log ++ [Call.start, Call.closeService, Call.disconnect])

/-- How far a call got: it returned, or it is still inside its loop after the
number of iterations that were observed. -/
inductive Progress (α : Type) where
  | returned (result : α)
  | looping
  deriving DecidableEq

/-- The wait loop of `Stop`, `for status.State != svc.Stopped { select ... }`.
`fuel` bounds the iterations observed, `i` counts iterations, `q` the queries made.
The timer of `time.After` delivers one value: iteration `deadline` is the one whose
`select` takes `case <-timeout`, every other iteration takes `case <-tick.C`.  The
`break` of the timeout case ends the `select` statement, after which the `for`
condition is evaluated again. -/
def stopWait (env : Env) (deadline : Nat) :
    Nat → Nat → Nat → State → List Call → Progress (Option GoError) × List Call
  | 0, _, _, _, log => (Progress.looping, log)
  | fuel + 1, i, q, state, log =>
    if state = Stopped then (Progress.returned none, log)
    else if i = deadline then stopWait env deadline fuel (i + 1) q state log
    else
      match env.query q with
      | Except.error err => (Progress.returned (some err), log ++ [Call.query])
      | Except.ok st => stopWait env deadline fuel (i + 1) (q + 1) st (log ++ [Call.query])

def Stop (env : Env) (deadline fuel : Nat) (name : String) (log : List Call) :
    Progress (Option GoError) × List Call :=
  let log := log ++ [Call.connect]
  match env.connect with
  | some err => (Progress.returned (some err), log)
  | none =>
    let log := log ++ [Call.openService name]
    match env.openService name with
    | some err => (Progress.returned (some err), log ++ [Call.disconnect])
    | none =>
      let log := log ++ [Call.controlStop]
      match env.control with
      | Except.error err =>
        (Progress.returned (some err), log ++ [Call.closeService, Call.disconnect])
      | Except.ok state =>
        match stopWait env deadline fuel 0 0 state log with
        | (Progress.returned r, log) =>
          (Progress.returned r, log ++ [Call.closeService, Call.disconnect])
        | (Progress.looping, log) => (Progress.looping, log)

/-- The rendering `switch status.State` of `Status`. -/
def stateString (state : State) : String :=
  if state = Stopped then "stopped"
  else if state = StartPending then "start pending"
  else if state = StopPending then "stop pending"
  else if state = Running then "running"
  else if state = ContinuePending then "continue pending"
  else if state = PausePending then "pause pending"
  else if state = Paused then "paused"
  else "unknown"

def Status (env : Env) (name : String) (log : List Call) :
    (String × Option GoError) × List Call :=
  let log := log ++ [Call.connect]
  match env.connect with
  | some err => (("", some err), log)
  | none =>
    let log := log ++ [Call.openService name]
    match env.openService name with
    | some err =>
      match err with
      | GoError.errno code =>
        if code = 1060 then (("uninstalled", none), log ++ [Call.disconnect])
        else (("", some err), log ++ [Call.disconnect])
      | _ => (("", some err), log ++ [Call.disconnect])
    | none =>
      let log := log ++ [Call.query]
      match env.query 0 with
      | Except.error err => (("", some err), log ++ [Call.closeService, Call.disconnect])
      | Except.ok state =>
        ((stateString state, none), log ++ [Call.closeService, Call.disconnect])

def Uninstall (env : Env) (name : String) (log : List Call) : Option GoError × List Call :=
  let log := log ++ [Call.connect]
  match env.connect with
  | some err => (some err, log)
  | none =>
    let log := log ++ [Call.openService name]
    match env.openService name with
    | some err => (some err, log ++ [Call.disconnect])
    | none =>
      match env.delete with
      | some err => (some err, log ++ [Call.delete, Call.closeService, Call.disconnect])
      | none => (none, log ++ [Call.delete, Call.closeService, Call.disconnect])

/-- A manager that can be reached, answers every open request with `opened`, and
holds a service that passes through the states `states 0`, `states 1`, ...: the stop
request reports `states 0` and the `k`-th query `states (k + 1)`, unless the manager
refuses start and stop requests with `reply`. -/
def managerEnv (opened reply : Option GoError) (states : Nat → State) : Env where
  connect := none
  openService := fun _ => opened
  createService := fun _ _ _ _ => none
  start := reply
  control :=
    match reply with
    | some err => Except.error err
    | none => Except.ok (states 0)
  query := fun k => Except.ok (states (k + 1))
  delete := none

end windows

/-! ## Facts about the file system of the host model -/

theorem read_log (w : linux.World) (c : linux.Call) (p : String) :
    (w.log c).read p = w.read p := rfl

theorem files_log (w : linux.World) (c : linux.Call) : (w.log c).files = w.files := rfl

theorem read_truncate (w : linux.World) (p : String) : (w.truncate p).read p = some "" := by
  simp [linux.World.truncate, linux.World.read, List.lookup]

theorem lookup_map_append (l : List (String × String)) (p t : String) :
    (l.map (fun f => if f.1 = p then (f.1, f.2 ++ t) else f)).lookup p =
      (l.lookup p).map (fun c => c ++ t) := by
  induction l with
  | nil => rfl
  | cons f l ih =>
    obtain ⟨k, v⟩ := f
    by_cases hk : k = p
    · subst hk
      simp only [List.map_cons, if_true, List.lookup_cons, beq_self_eq_true, Option.map_some']
    · have hb : (p == k) = false := by
        simp only [beq_eq_false_iff_ne, ne_eq]
        exact fun h => hk h.symm
      simp only [List.map_cons, hk, if_false, List.lookup_cons, hb]
      exact ih

theorem read_Fprintf (env : linux.Env) (w : linux.World) (p t : String) :
    (linux.Fprintf env p t w).read p =
      (w.read p).map (fun c => c ++ String.mk (t.data.take (env.write p t))) := by
  simp only [linux.Fprintf, linux.World.append, linux.World.read, linux.World.log]
  exact lookup_map_append _ _ _

theorem take_full_write (t : String) (n : Nat) (h : t.length ≤ n) :
    String.mk (t.data.take n) = t := by
  apply String.ext
  exact List.take_of_length_le h

theorem read_Fprintf_full (env : linux.Env) (w : linux.World) (p t : String)
    (h : t.length ≤ env.write p t) :
    (linux.Fprintf env p t w).read p = (w.read p).map (fun c => c ++ t) := by
  rw [read_Fprintf, take_full_write t _ h]

/-! ## The guards of the unit-file backend -/

/-- C1: on the unit-file backend, when the unit file of `name` does not exist, Start,
Stop, Status and Uninstall return `ErrNotInstalled` (Status with the empty string)
for every answer the host would give to the privilege check or to any command, and
the only host call made is the `os.Stat` of the unit file path: the files are
unchanged and no `systemctl` command and no removal is logged. -/
theorem notInstalled_before_any_mutation (env : linux.Env) (name : String) (w : linux.World)
    (h : (linux.isInstalled name w).1 = false) :
    linux.Start env name w =
      (some linux.ErrNotInstalled, w.log (linux.Call.stat (linux.servicePath name))) ∧
    linux.Stop env name w =
      (some linux.ErrNotInstalled, w.log (linux.Call.stat (linux.servicePath name))) ∧
    linux.Status env name w =
      (("", some linux.ErrNotInstalled), w.log (linux.Call.stat (linux.servicePath name))) ∧
    linux.Uninstall env name w =
      (some linux.ErrNotInstalled, w.log (linux.Call.stat (linux.servicePath name))) ∧
    (w.log (linux.Call.stat (linux.servicePath name))).files = w.files ∧
    (w.log (linux.Call.stat (linux.servicePath name))).calls =
      w.calls ++ [linux.Call.stat ("/etc/systemd/system/" ++ name ++ ".service")] := by
  simp only [linux.isInstalled] at h
  refine ⟨?_, ?_, ?_, ?_, rfl, rfl⟩ <;>
    simp [linux.Start, linux.Stop, linux.Status, linux.Uninstall, linux.isInstalled, h]

/-- C1 at a host without any unit file, for the service name `svc`. -/
theorem notInstalled_before_any_mutation_witness :
    (linux.isInstalled "svc" ⟨[], []⟩).1 = false ∧
    linux.Start (linux.hostEnv "0\n" [] "") "svc" ⟨[], []⟩ =
      (some linux.ErrNotInstalled,
        (⟨[], []⟩ : linux.World).log (linux.Call.stat (linux.servicePath "svc"))) ∧
    linux.Uninstall (linux.hostEnv "0\n" [] "") "svc" ⟨[], []⟩ =
      (some linux.ErrNotInstalled,
        (⟨[], []⟩ : linux.World).log (linux.Call.stat (linux.servicePath "svc"))) :=
  ⟨by decide,
    (notInstalled_before_any_mutation (linux.hostEnv "0\n" [] "") "svc" ⟨[], []⟩
      (by decide)).1,
    (notInstalled_before_any_mutation (linux.hostEnv "0\n" [] "") "svc" ⟨[], []⟩
      (by decide)).2.2.2.1⟩

/-- C2: on the unit-file backend, when the unit file of `params.Name` exists, Install
returns `ErrAlreadyInstalled` for every value of the other fields and every answer of
the host (the privilege check included), and the only host call made is the `os.Stat`
of the unit file path: the files, the existing unit file among them, are unchanged and
no `os.Create` and no `systemctl` command is logged. -/
theorem install_rejects_existing (env : linux.Env) (params : InstallParams) (w : linux.World)
    (h : (linux.isInstalled params.Name w).1 = true) :
    linux.Install env params w =
      (some linux.ErrAlreadyInstalled,
        w.log (linux.Call.stat (linux.servicePath params.Name))) ∧
    (linux.Install env params w).2.files = w.files ∧
    (linux.Install env params w).2.read (linux.servicePath params.Name) =
      w.read (linux.servicePath params.Name) ∧
    (linux.Install env params w).2.calls =
      w.calls ++ [linux.Call.stat (linux.servicePath params.Name)] := by
  simp only [linux.isInstalled] at h
  have e : linux.Install env params w =
      (some linux.ErrAlreadyInstalled,
        w.log (linux.Call.stat (linux.servicePath params.Name))) := by
    simp [linux.Install, linux.isInstalled, h]
  rw [e]
  exact ⟨rfl, rfl, rfl, rfl⟩

/-- C2 at a host that holds a unit file for `svc`, with other parameters than those
of the first installation and a caller outside group 0. -/
theorem install_rejects_existing_witness :
    (linux.isInstalled "svc" ⟨[("/etc/systemd/system/svc.service", "[Unit]\n")], []⟩).1 = true ∧
    (linux.Install (linux.hostEnv "1000\n" [] "") ⟨"svc", "/bin/other", "-v", "", "x"⟩
      ⟨[("/etc/systemd/system/svc.service", "[Unit]\n")], []⟩).1 =
        some linux.ErrAlreadyInstalled ∧
    (linux.Install (linux.hostEnv "1000\n" [] "") ⟨"svc", "/bin/other", "-v", "", "x"⟩
      ⟨[("/etc/systemd/system/svc.service", "[Unit]\n")], []⟩).2.files =
        [("/etc/systemd/system/svc.service", "[Unit]\n")] :=
  ⟨by decide,
    congrArg Prod.fst (install_rejects_existing (linux.hostEnv "1000\n" [] "")
      ⟨"svc", "/bin/other", "-v", "", "x"⟩
      ⟨[("/etc/systemd/system/svc.service", "[Unit]\n")], []⟩ (by decide)).1,
    (install_rejects_existing (linux.hostEnv "1000\n" [] "")
      ⟨"svc", "/bin/other", "-v", "", "x"⟩
      ⟨[("/etc/systemd/system/svc.service", "[Unit]\n")], []⟩ (by decide)).2.1⟩

/-- C4: on the unit-file backend, when `checkPrivileges` reports not authorized, its
error is not nil, and Install for every name that is not installed, and Start, Stop and
Uninstall for every installed name, return exactly that error and leave the world as
it was right after the check: the files are unchanged and the calls made are the
`os.Stat` and the `id -g` query only (no create, write, remove, `systemctl` command or
state probe). -/
theorem privilege_gate_short_circuits (env : linux.Env) (w : linux.World)
    (hgate : (linux.checkPrivileges env w).1.1 = false) :
    (linux.checkPrivileges env w).1.2 ≠ none ∧
    (∀ params : InstallParams, (linux.isInstalled params.Name w).1 = false →
      linux.Install env params w =
        ((linux.checkPrivileges env w).1.2,
          (w.log (linux.Call.stat (linux.servicePath params.Name))).log
            (linux.Call.exec "id" ["-g"])) ∧
      (linux.Install env params w).2.files = w.files) ∧
    (∀ name : String, (linux.isInstalled name w).1 = true →
      linux.Start env name w =
        ((linux.checkPrivileges env w).1.2,
          (w.log (linux.Call.stat (linux.servicePath name))).log
            (linux.Call.exec "id" ["-g"])) ∧
      linux.Stop env name w =
        ((linux.checkPrivileges env w).1.2,
          (w.log (linux.Call.stat (linux.servicePath name))).log
            (linux.Call.exec "id" ["-g"])) ∧
      linux.Uninstall env name w =
        ((linux.checkPrivileges env w).1.2,
          (w.log (linux.Call.stat (linux.servicePath name))).log
            (linux.Call.exec "id" ["-g"])) ∧
      ((w.log (linux.Call.stat (linux.servicePath name))).log
        (linux.Call.exec "id" ["-g"])).files = w.files) := by
  have hg : (linux.checkPrivilegesOf (env.exec "id" ["-g"])).1 = false := hgate
  refine ⟨?_, ?_, ?_⟩
  · simp only [linux.checkPrivileges]
    revert hg
    unfold linux.checkPrivilegesOf
    split
    · split
      · split <;> simp
      · simp
    · simp
  · intro params hnew
    simp only [linux.isInstalled] at hnew
    have e : linux.Install env params w =
        ((linux.checkPrivileges env w).1.2,
          (w.log (linux.Call.stat (linux.servicePath params.Name))).log
            (linux.Call.exec "id" ["-g"])) := by
      simp [linux.Install, linux.isInstalled, hnew, linux.checkPrivileges, hg]
    rw [e]
    exact ⟨rfl, rfl⟩
  · intro name hold
    simp only [linux.isInstalled] at hold
    refine ⟨?_, ?_, ?_, rfl⟩
    · simp [linux.Start, linux.isInstalled, hold, linux.checkPrivileges, hg]
    · simp [linux.Stop, linux.isInstalled, hold, linux.checkPrivileges, hg]
    · simp [linux.Uninstall, linux.isInstalled, hold, linux.checkPrivileges, hg]

/-- C4 for a caller whose group id is 1000: a first Install on a host without any unit
file, and Uninstall on a host where `svc` is installed. -/
theorem privilege_gate_short_circuits_witness :
    ((linux.checkPrivileges (linux.hostEnv "1000\n" [] "") ⟨[], []⟩).1.1 = false ∧
      (linux.isInstalled "svc" ⟨[], []⟩).1 = false ∧
      (linux.checkPrivileges (linux.hostEnv "1000\n" [] "") ⟨[], []⟩).1.2 ≠ none ∧
      linux.Install (linux.hostEnv "1000\n" [] "") ⟨"svc", "/bin/app", "", "", ""⟩ ⟨[], []⟩ =
        (some linux.ErrInsufficientPrivileges,
          ⟨[], [linux.Call.stat "/etc/systemd/system/svc.service",
            linux.Call.exec "id" ["-g"]]⟩)) ∧
    ((linux.isInstalled "svc" ⟨[("/etc/systemd/system/svc.service", "[Unit]\n")], []⟩).1
        = true ∧
      (linux.Uninstall (linux.hostEnv "1000\n" [] "") "svc"
        ⟨[("/etc/systemd/system/svc.service", "[Unit]\n")], []⟩).1 =
          some linux.ErrInsufficientPrivileges) :=
  ⟨⟨by decide, by decide,
      (privilege_gate_short_circuits (linux.hostEnv "1000\n" [] "") ⟨[], []⟩ (by decide)).1,
      ((privilege_gate_short_circuits (linux.hostEnv "1000\n" [] "") ⟨[], []⟩
        (by decide)).2.1 ⟨"svc", "/bin/app", "", "", ""⟩ (by decide)).1.trans (by decide)⟩,
    ⟨by decide,
      congrArg Prod.fst ((privilege_gate_short_circuits (linux.hostEnv "1000\n" [] "")
        ⟨[("/etc/systemd/system/svc.service", "[Unit]\n")], []⟩
        (by decide)).2.2 "svc" (by decide)).2.2.1⟩⟩

/-! ## The privilege check -/

theorem digit_le_nine (c : Char) (h : c.isDigit = true) : c.toNat - 48 ≤ 9 := by
  simp only [Char.isDigit, Bool.and_eq_true, decide_eq_true_eq, ge_iff_le] at h
  obtain ⟨_, h2⟩ := h
  have : c.val.toNat ≤ 57 := h2
  simp only [Char.toNat]
  omega

theorem foldl_digits_ge (cs : List Char) (n : Nat) :
    n ≤ cs.foldl (fun n c => n * 10 + (c.toNat - 48)) n := by
  induction cs generalizing n with
  | nil => simp
  | cons c cs ih =>
    simp only [List.foldl_cons]
    exact le_trans (by omega) (ih _)

/-- The digit loop with a 32-bit bound succeeds exactly on digit strings whose value
stays within the bound, and then returns that value. -/
theorem parseUintLoop_spec (cs : List Char) (n : Nat) (hn : n ≤ 4294967295) :
    ((parseUintLoop 4294967295 cs n).2 = none ↔
      ((∀ c ∈ cs, c.isDigit = true) ∧
        cs.foldl (fun n c => n * 10 + (c.toNat - 48)) n ≤ 4294967295)) ∧
    ((parseUintLoop 4294967295 cs n).2 = none →
      (parseUintLoop 4294967295 cs n).1 =
        cs.foldl (fun n c => n * 10 + (c.toNat - 48)) n) := by
  induction cs generalizing n with
  | nil => simp [parseUintLoop, hn]
  | cons c cs ih =>
    unfold parseUintLoop
    by_cases hc : c.isDigit = true
    · have hd := digit_le_nine c hc
      have h1 : ¬ (n ≥ (2 ^ 64 - 1) / 10 + 1) := by norm_num; omega
      have h2 : (n * 10) % 2 ^ 64 = n * 10 := Nat.mod_eq_of_lt (by norm_num; omega)
      have h3 : (n * 10 + (c.toNat - 48)) % 2 ^ 64 = n * 10 + (c.toNat - 48) :=
        Nat.mod_eq_of_lt (by norm_num; omega)
      simp only [hc, if_true, h1, if_false, h2, h3, List.foldl_cons, List.mem_cons,
        forall_eq_or_imp, true_and]
      by_cases hb : n * 10 + (c.toNat - 48) > 4294967295
      · have hge := foldl_digits_ge cs (n * 10 + (c.toNat - 48))
        have : ¬ (cs.foldl (fun n c => n * 10 + (c.toNat - 48)) (n * 10 + (c.toNat - 48))
            ≤ 4294967295) := by omega
        simp [hb, this]
      · have hlt : ¬ (n * 10 + (c.toNat - 48) < n * 10) := by omega
        simp only [hlt, hb, or_self, if_false]
        exact ih _ (by omega)
    · simp [hc]

/-- The model of `strconv.ParseUint(s, 10, 32)` succeeds exactly on the base-10
unsigned 32-bit integers, and then returns the value of the digits. -/
theorem ParseUint_spec (s : String) :
    ((ParseUint s 32).2 = none ↔ isDecimalUint32 s) ∧
    ((ParseUint s 32).2 = none → (ParseUint s 32).1 = decimalValue s.data) := by
  unfold ParseUint isDecimalUint32 decimalValue
  by_cases hs : s = ""
  · simp [hs]
  · have h := parseUintLoop_spec s.data 0 (by omega)
    have e : (2 : Nat) ^ 32 - 1 = 4294967295 := by norm_num
    simp only [hs, if_false, e, ne_eq, not_false_eq_true, true_and]
    exact h

/-- C5: as a function of the outcome of `id -g`, `checkPrivileges` returns
`(false, ErrUnsupportedSystem)` when the query failed; otherwise
`(false, ErrInvalidSystemResponse)` when the trimmed output is not a base-10 unsigned
32-bit integer (empty, `-0`, `+0`, not a number, 4294967296); otherwise `(true, nil)`
when the group id is 0 (also written `0\n` or `000`); otherwise
`(false, ErrInsufficientPrivileges)`.  Authorized is true exactly when the error is
nil. -/
theorem checkPrivileges_classifies (outcome : Except GoError String) :
    (match outcome with
      | Except.error _ =>
        linux.checkPrivilegesOf outcome = (false, some linux.ErrUnsupportedSystem)
      | Except.ok output =>
        if isDecimalUint32 (TrimSpace output) then
          if decimalValue (TrimSpace output).data = 0 then
            linux.checkPrivilegesOf outcome = (true, none)
          else linux.checkPrivilegesOf outcome = (false, some linux.ErrInsufficientPrivileges)
        else linux.checkPrivilegesOf outcome = (false, some linux.ErrInvalidSystemResponse)) ∧
    ((linux.checkPrivilegesOf outcome).1 = true ↔ (linux.checkPrivilegesOf outcome).2 = none) ∧
    (∀ (env : linux.Env) (w : linux.World),
      (linux.checkPrivileges env w).1 = linux.checkPrivilegesOf (env.exec "id" ["-g"])) ∧
    linux.checkPrivilegesOf (Except.ok "") = (false, some linux.ErrInvalidSystemResponse) ∧
    linux.checkPrivilegesOf (Except.ok "-0") = (false, some linux.ErrInvalidSystemResponse) ∧
    linux.checkPrivilegesOf (Except.ok "+0") = (false, some linux.ErrInvalidSystemResponse) ∧
    linux.checkPrivilegesOf (Except.ok "root\n") =
      (false, some linux.ErrInvalidSystemResponse) ∧
    linux.checkPrivilegesOf (Except.ok "4294967296\n") =
      (false, some linux.ErrInvalidSystemResponse) ∧
    linux.checkPrivilegesOf (Except.ok "4294967295\n") =
      (false, some linux.ErrInsufficientPrivileges) ∧
    linux.checkPrivilegesOf (Except.ok "0\n") = (true, none) ∧
    linux.checkPrivilegesOf (Except.ok "000") = (true, none) := by
  refine ⟨?_, ?_, fun _ _ => rfl, by decide, by decide, by decide, by decide, by decide,
    by decide, by decide, by decide⟩
  · cases outcome with
    | error e => simp [linux.checkPrivilegesOf]
    | ok output =>
      have h := ParseUint_spec (TrimSpace output)
      simp only [linux.checkPrivilegesOf]
      generalize ParseUint (TrimSpace output) 32 = r at h
      obtain ⟨gid, err⟩ := r
      cases err with
      | none =>
        simp only [true_iff, true_implies] at h
        obtain ⟨h1, h2⟩ := h
        simp only [h1, if_true, ← h2]
        by_cases hg : gid = 0 <;> simp [hg]
      | some e =>
        have h1 : ¬ isDecimalUint32 (TrimSpace output) := by
          intro hh
          have := h.1.2 hh
          simp at this
        simp [h1]
  · unfold linux.checkPrivilegesOf
    split
    · split
      · split <;> simp
      · simp
    · simp

/-! ## The unit file written by Install -/

theorem unit_text_assoc (d cmd : String) :
    "" ++ "[Unit]\n" ++ ("Description=" ++ d ++ "\n\n") ++ "[Service]\n" ++
        ("ExecStart=" ++ cmd ++ "\n") ++ "Restart=on-failure\n\n" ++ "[Install]\n" ++
        "WantedBy=multi-user.target\n" =
      "[Unit]\nDescription=" ++ d ++ "\n\n[Service]\nExecStart=" ++ cmd ++
        "\nRestart=on-failure\n\n[Install]\nWantedBy=multi-user.target\n" := by
  apply String.ext
  simp only [String.data_append, List.append_assoc]
  rfl

/-- The unit file after an Install that got past `os.Create`, on a host that accepts
every write in full: the complete unit text, whatever `systemctl` answers. -/
theorem read_after_install (env : linux.Env) (params : InstallParams) (w : linux.World)
    (hnew : (linux.isInstalled params.Name w).1 = false)
    (hgate : (linux.checkPrivileges env w).1.1 = true)
    (hcreate : env.create (linux.servicePath params.Name) = none)
    (hwrite : ∀ text, text.length ≤ env.write (linux.servicePath params.Name) text) :
    (linux.Install env params w).2.read (linux.servicePath params.Name) =
      some ("[Unit]\nDescription=" ++ params.Description ++ "\n\n[Service]\nExecStart=" ++
        linux.installCmd params ++
        "\nRestart=on-failure\n\n[Install]\nWantedBy=multi-user.target\n") := by
  simp only [linux.isInstalled] at hnew
  have hg : (linux.checkPrivilegesOf (env.exec "id" ["-g"])).1 = true := hgate
  have hF : ∀ (w1 : linux.World) (t : String),
      (linux.Fprintf env (linux.servicePath params.Name) t w1).read
          (linux.servicePath params.Name) =
        (w1.read (linux.servicePath params.Name)).map (fun c => c ++ t) :=
    fun w1 t => read_Fprintf_full env w1 _ t (hwrite t)
  rw [← unit_text_assoc]
  cases h1 : env.exec "systemctl" ["daemon-reload"] <;>
    cases h2 : env.exec "systemctl" ["enable", params.Name ++ ".service"] <;>
    simp [linux.Install, linux.isInstalled, hnew, linux.checkPrivileges, hg, hcreate, h1, h2,
      read_log, hF, read_truncate]

/-- The unit file exists after an Install that got past `os.Create`, whatever the
writes and `systemctl` answer. -/
theorem installed_after_create (env : linux.Env) (params : InstallParams) (w : linux.World)
    (hnew : (linux.isInstalled params.Name w).1 = false)
    (hgate : (linux.checkPrivileges env w).1.1 = true)
    (hcreate : env.create (linux.servicePath params.Name) = none) :
    (linux.isInstalled params.Name (linux.Install env params w).2).1 = true := by
  simp only [linux.isInstalled] at hnew
  have hg : (linux.checkPrivilegesOf (env.exec "id" ["-g"])).1 = true := hgate
  cases h1 : env.exec "systemctl" ["daemon-reload"] <;>
    cases h2 : env.exec "systemctl" ["enable", params.Name ++ ".service"] <;>
    simp [linux.Install, linux.isInstalled, hnew, linux.checkPrivileges, hg, hcreate, h1, h2,
      read_log, read_Fprintf, read_truncate]

/-- C9 does not hold on every host: on a host whose disk is full, Install reaches the
write step (the name is not installed, the caller is in group 0, `os.Create` succeeds),
returns nil, and the unit file is empty instead of holding the unit text. -/
theorem install_unit_file_empty_on_full_disk :
    (linux.isInstalled "svc" ⟨[], []⟩).1 = false ∧
    (linux.checkPrivileges linux.fullDiskEnv ⟨[], []⟩).1.1 = true ∧
    linux.fullDiskEnv.create (linux.servicePath "svc") = none ∧
    (linux.Install linux.fullDiskEnv ⟨"svc", "/bin/app", "", "", "demo"⟩ ⟨[], []⟩).1 = none ∧
    (linux.Install linux.fullDiskEnv ⟨"svc", "/bin/app", "", "", "demo"⟩
      ⟨[], []⟩).2.read "/etc/systemd/system/svc.service" = some "" ∧
    (linux.Install linux.fullDiskEnv ⟨"svc", "/bin/app", "", "", "demo"⟩
      ⟨[], []⟩).2.read "/etc/systemd/system/svc.service" ≠
      some ("[Unit]\nDescription=demo\n\n[Service]\nExecStart=/bin/app\n" ++
        "Restart=on-failure\n\n[Install]\nWantedBy=multi-user.target\n") :=
  ⟨by decide, by decide, rfl, by decide, by decide, by decide⟩

/-- C9 as amended: on the unit-file backend, when Install reaches the write step (the
name is not installed, the caller is authorized and `os.Create` succeeds) and the host
accepts every write to the file in full, the file at
`/etc/systemd/system/<Name>.service` holds exactly the unit text with the description
and the command line inserted as they are, whatever `systemctl` answers afterwards;
the command line is the executable alone when `Args` is empty and the executable, one
space and `Args` otherwise. -/
theorem install_writes_unit_file (env : linux.Env) (params : InstallParams) (w : linux.World)
    (hnew : (linux.isInstalled params.Name w).1 = false)
    (hgate : (linux.checkPrivileges env w).1.1 = true)
    (hcreate : env.create (linux.servicePath params.Name) = none)
    (hwrite : ∀ text, text.length ≤ env.write (linux.servicePath params.Name) text) :
    linux.servicePath params.Name = "/etc/systemd/system/" ++ params.Name ++ ".service" ∧
    (linux.Install env params w).2.read (linux.servicePath params.Name) =
      some ("[Unit]\nDescription=" ++ params.Description ++ "\n\n[Service]\nExecStart=" ++
        linux.installCmd params ++
        "\nRestart=on-failure\n\n[Install]\nWantedBy=multi-user.target\n") ∧
    linux.installCmd params =
      (if params.Args = "" then params.Executable
        else params.Executable ++ " " ++ params.Args) := by
  refine ⟨rfl, read_after_install env params w hnew hgate hcreate hwrite, ?_⟩
  unfold linux.installCmd
  by_cases h : params.Args = "" <;> simp [h, String.append_assoc]

/-- C9 as amended, for a service with arguments, installed by a caller in group 0 on a
host that accepts every write. -/
theorem install_writes_unit_file_witness :
    (linux.isInstalled "svc" ⟨[], []⟩).1 = false ∧
    (linux.checkPrivileges (linux.hostEnv "0\n" [] "") ⟨[], []⟩).1.1 = true ∧
    (linux.hostEnv "0\n" [] "").create (linux.servicePath "svc") = none ∧
    (∀ text : String,
      text.length ≤ (linux.hostEnv "0\n" [] "").write (linux.servicePath "svc") text) ∧
    (linux.Install (linux.hostEnv "0\n" [] "") ⟨"svc", "/bin/app", "-p 80", "", "demo"⟩
      ⟨[], []⟩).2.read "/etc/systemd/system/svc.service" =
      some ("[Unit]\nDescription=demo\n\n[Service]\nExecStart=/bin/app -p 80\n" ++
        "Restart=on-failure\n\n[Install]\nWantedBy=multi-user.target\n") :=
  ⟨by decide, by decide, rfl, fun _ => Nat.le_refl _,
    (install_writes_unit_file (linux.hostEnv "0\n" [] "")
      ⟨"svc", "/bin/app", "-p 80", "", "demo"⟩ ⟨[], []⟩ (by decide) (by decide) rfl
      (fun _ => Nat.le_refl _)).2.1.trans (by decide)⟩

/-! ## Failure of Install after the unit file was written -/

/-- C7 does not hold: for a caller in group 0 on a host where `systemctl daemon-reload`
fails, Install of a name that was not installed returns that error and the unit file
stays on the host. -/
theorem install_failure_leaves_unit_file :
    (linux.isInstalled "svc" ⟨[], []⟩).1 = false ∧
    (linux.Install (linux.hostEnv "0\n" ["daemon-reload"] "")
      ⟨"svc", "/bin/app", "", "", "demo"⟩ ⟨[], []⟩).1 = some (GoError.sys "exit status 1") ∧
    (linux.isInstalled "svc"
      (linux.Install (linux.hostEnv "0\n" ["daemon-reload"] "")
        ⟨"svc", "/bin/app", "", "", "demo"⟩ ⟨[], []⟩).2).1 = true := by
  decide

/-- C7 as amended: for Install of a name that was not installed, on every host:
(a) when the privilege check fails, Install returns its error, the files are unchanged
and the name is still not installed; (b) when `os.Create` fails, Install returns that
error, the files are unchanged and the name is still not installed; (c) when
`os.Create` succeeds, the unit file exists afterwards in every outcome, Install returns
the error of `systemctl daemon-reload` when that fails, else the error of
`systemctl enable` when that fails, else nil, and the file holds the complete unit text
when the host accepted every write (Install has no rollback). -/
theorem install_error_outcomes (env : linux.Env) (params : InstallParams) (w : linux.World)
    (hnew : (linux.isInstalled params.Name w).1 = false) :
    ((linux.checkPrivileges env w).1.1 = false →
      linux.Install env params w =
        ((linux.checkPrivileges env w).1.2,
          (w.log (linux.Call.stat (linux.servicePath params.Name))).log
            (linux.Call.exec "id" ["-g"])) ∧
      (linux.Install env params w).2.files = w.files ∧
      (linux.isInstalled params.Name (linux.Install env params w).2).1 = false) ∧
    ((linux.checkPrivileges env w).1.1 = true →
      ∀ err, env.create (linux.servicePath params.Name) = some err →
        linux.Install env params w =
          (some err,
            ((w.log (linux.Call.stat (linux.servicePath params.Name))).log
              (linux.Call.exec "id" ["-g"])).log
              (linux.Call.create (linux.servicePath params.Name))) ∧
        (linux.Install env params w).2.files = w.files ∧
        (linux.isInstalled params.Name (linux.Install env params w).2).1 = false) ∧
    ((linux.checkPrivileges env w).1.1 = true →
      env.create (linux.servicePath params.Name) = none →
        (linux.isInstalled params.Name (linux.Install env params w).2).1 = true ∧
        (∀ err, env.exec "systemctl" ["daemon-reload"] = Except.error err →
          (linux.Install env params w).1 = some err) ∧
        (∀ out err, env.exec "systemctl" ["daemon-reload"] = Except.ok out →
          env.exec "systemctl" ["enable", params.Name ++ ".service"] = Except.error err →
          (linux.Install env params w).1 = some err) ∧
        (∀ out out2, env.exec "systemctl" ["daemon-reload"] = Except.ok out →
          env.exec "systemctl" ["enable", params.Name ++ ".service"] = Except.ok out2 →
          (linux.Install env params w).1 = none) ∧
        ((∀ text, text.length ≤ env.write (linux.servicePath params.Name) text) →
          (linux.Install env params w).2.read (linux.servicePath params.Name) =
            some ("[Unit]\nDescription=" ++ params.Description ++
              "\n\n[Service]\nExecStart=" ++ linux.installCmd params ++
              "\nRestart=on-failure\n\n[Install]\nWantedBy=multi-user.target\n"))) := by
  have hnew2 := hnew
  simp only [linux.isInstalled] at hnew
  refine ⟨?_, ?_, ?_⟩
  · intro hgate
    have hg : (linux.checkPrivilegesOf (env.exec "id" ["-g"])).1 = false := hgate
    have e : linux.Install env params w =
        ((linux.checkPrivileges env w).1.2,
          (w.log (linux.Call.stat (linux.servicePath params.Name))).log
            (linux.Call.exec "id" ["-g"])) := by
      simp [linux.Install, linux.isInstalled, hnew, linux.checkPrivileges, hg]
    rw [e]
    exact ⟨rfl, rfl, hnew⟩
  · intro hgate err hc
    have hg : (linux.checkPrivilegesOf (env.exec "id" ["-g"])).1 = true := hgate
    have e : linux.Install env params w =
        (some err,
          ((w.log (linux.Call.stat (linux.servicePath params.Name))).log
            (linux.Call.exec "id" ["-g"])).log
            (linux.Call.create (linux.servicePath params.Name))) := by
      simp [linux.Install, linux.isInstalled, hnew, linux.checkPrivileges, hg, hc,
        linux.World.log]
    rw [e]
    exact ⟨rfl, rfl, hnew⟩
  · intro hgate hc
    have hg : (linux.checkPrivilegesOf (env.exec "id" ["-g"])).1 = true := hgate
    refine ⟨installed_after_create env params w hnew2 hgate hc, ?_, ?_, ?_,
      read_after_install env params w hnew2 hgate hc⟩
    · intro err h1
      simp [linux.Install, linux.isInstalled, hnew, linux.checkPrivileges, hg, hc, h1]
    · intro out err h1 h2
      simp [linux.Install, linux.isInstalled, hnew, linux.checkPrivileges, hg, hc, h1, h2]
    · intro out out2 h1 h2
      simp [linux.Install, linux.isInstalled, hnew, linux.checkPrivileges, hg, hc, h1, h2]

/-- C7 as amended, for a caller outside group 0 (nothing is written) and for a host
where `systemctl enable` fails (Install returns that error and the complete unit file
stays). -/
theorem install_error_outcomes_witness :
    (linux.isInstalled "svc" ⟨[], []⟩).1 = false ∧
    ((linux.Install (linux.hostEnv "1000\n" [] "") ⟨"svc", "/bin/app", "", "", "demo"⟩
        ⟨[], []⟩).1 = some linux.ErrInsufficientPrivileges ∧
      (linux.isInstalled "svc"
        (linux.Install (linux.hostEnv "1000\n" [] "") ⟨"svc", "/bin/app", "", "", "demo"⟩
          ⟨[], []⟩).2).1 = false) ∧
    ((linux.Install (linux.hostEnv "0\n" ["enable"] "") ⟨"svc", "/bin/app", "", "", "demo"⟩
        ⟨[], []⟩).1 = some (GoError.sys "exit status 1") ∧
      (linux.isInstalled "svc"
        (linux.Install (linux.hostEnv "0\n" ["enable"] "") ⟨"svc", "/bin/app", "", "", "demo"⟩
          ⟨[], []⟩).2).1 = true ∧
      (linux.Install (linux.hostEnv "0\n" ["enable"] "") ⟨"svc", "/bin/app", "", "", "demo"⟩
        ⟨[], []⟩).2.read "/etc/systemd/system/svc.service" =
        some ("[Unit]\nDescription=demo\n\n[Service]\nExecStart=/bin/app\n" ++
          "Restart=on-failure\n\n[Install]\nWantedBy=multi-user.target\n")) :=
  ⟨by decide,
    ⟨congrArg Prod.fst ((install_error_outcomes (linux.hostEnv "1000\n" [] "")
        ⟨"svc", "/bin/app", "", "", "demo"⟩ ⟨[], []⟩ (by decide)).1 (by decide)).1,
      ((install_error_outcomes (linux.hostEnv "1000\n" [] "")
        ⟨"svc", "/bin/app", "", "", "demo"⟩ ⟨[], []⟩ (by decide)).1 (by decide)).2.2⟩,
    ⟨((install_error_outcomes (linux.hostEnv "0\n" ["enable"] "")
        ⟨"svc", "/bin/app", "", "", "demo"⟩ ⟨[], []⟩ (by decide)).2.2 (by decide) rfl).2.2.1
        "" (GoError.sys "exit status 1") rfl rfl,
      ((install_error_outcomes (linux.hostEnv "0\n" ["enable"] "")
        ⟨"svc", "/bin/app", "", "", "demo"⟩ ⟨[], []⟩ (by decide)).2.2 (by decide) rfl).1,
      (((install_error_outcomes (linux.hostEnv "0\n" ["enable"] "")
        ⟨"svc", "/bin/app", "", "", "demo"⟩ ⟨[], []⟩ (by decide)).2.2 (by decide)
        rfl).2.2.2.2 (fun _ => Nat.le_refl _)).trans (by decide)⟩⟩

/-! ## The wait loop of Stop on the control-manager backend -/

theorem stopWait_never_returns (env : windows.Env) (deadline : Nat)
    (hq : ∀ k, ∃ st, env.query k = Except.ok st ∧ st ≠ windows.Stopped) :
    ∀ (fuel i q : Nat) (state : windows.State) (log : List windows.Call),
      state ≠ windows.Stopped →
      (windows.stopWait env deadline fuel i q state log).1 = windows.Progress.looping := by
  intro fuel
  induction fuel with
  | zero =>
    intro i q state log _
    rfl
  | succ fuel ih =>
    intro i q state log hs
    unfold windows.stopWait
    simp only [hs, if_false]
    by_cases hd : i = deadline
    · simp only [hd, if_true]
      exact ih _ _ _ _ hs
    · simp only [hd, if_false]
      obtain ⟨st, h1, h2⟩ := hq q
      simp only [h1]
      exact ih _ _ _ _ h2

theorem stopWait_log (env : windows.Env) (deadline : Nat) :
    ∀ (fuel i q : Nat) (state : windows.State) (log : List windows.Call),
      ∃ rest, (windows.stopWait env deadline fuel i q state log).2 = log ++ rest := by
  intro fuel
  induction fuel with
  | zero =>
    intro i q state log
    exact ⟨[], by simp [windows.stopWait]⟩
  | succ fuel ih =>
    intro i q state log
    unfold windows.stopWait
    by_cases hs : state = windows.Stopped
    · exact ⟨[], by simp [hs]⟩
    · simp only [hs, if_false]
      by_cases hd : i = deadline
      · simp only [hd, if_true]
        exact ih _ _ _ _
      · simp only [hd, if_false]
        cases hq : env.query q with
        | error e => exact ⟨[windows.Call.query], rfl⟩
        | ok st =>
          obtain ⟨rest, hr⟩ := ih (i + 1) (q + 1) st (log ++ [windows.Call.query])
          exact ⟨windows.Call.query :: rest, by simp [hr]⟩

/-- The loop does return once a query reports `Stopped`: a service that is stop-pending
for three polls and stopped at the fourth makes Stop return nil after four queries. -/
theorem stop_returns_once_stopped :
    windows.Stop (windows.managerEnv none none
        (fun k => if k < 4 then windows.StopPending else windows.Stopped)) 402 10 "svc" [] =
      (windows.Progress.returned none,
        [windows.Call.connect, windows.Call.openService "svc", windows.Call.controlStop,
          windows.Call.query, windows.Call.query, windows.Call.query, windows.Call.query,
          windows.Call.closeService, windows.Call.disconnect]) := by
  decide

/-- C6, the code at the failing input: for a service that answers `StopPending` to the
stop request and to every query, Stop has not returned after any number of loop
iterations, at whichever iteration the deadline timer fires. -/
theorem stop_never_returns_when_never_stopped (deadline fuel : Nat) (name : String)
    (log : List windows.Call) :
    (windows.Stop (windows.managerEnv none none (fun _ => windows.StopPending))
      deadline fuel name log).1 = windows.Progress.looping := by
  have h := stopWait_never_returns
    (windows.managerEnv none none (fun _ => windows.StopPending)) deadline
    (fun _ => ⟨windows.StopPending, rfl, by decide⟩) fuel 0 0 windows.StopPending
    (log ++ [windows.Call.connect] ++ [windows.Call.openService name] ++
      [windows.Call.controlStop]) (by decide)
  simp only [windows.Stop, windows.managerEnv] at h ⊢
  generalize windows.stopWait _ _ _ _ _ _ _ = r at h ⊢
  obtain ⟨p, l⟩ := r
  simp only at h
  subst h
  rfl

/-! ## The state guards of Start and Stop -/

/-- C3 does not hold on the control-manager backend: for a service that every query
reports as `Running`, Start issues the start call and returns the answer of the manager
(here system error 1056), and for a service that every query reports as `Stopped`, Stop
issues the stop control request and returns the answer of the manager (here system
error 1062). -/
theorem windows_start_stop_not_state_guarded :
    (windows.managerEnv none (some (GoError.errno 1056)) (fun _ => windows.Running)).query 0
      = Except.ok windows.Running ∧
    (windows.Start (windows.managerEnv none (some (GoError.errno 1056))
      (fun _ => windows.Running)) "svc" []).1 = some (GoError.errno 1056) ∧
    windows.Call.start ∈ (windows.Start (windows.managerEnv none (some (GoError.errno 1056))
      (fun _ => windows.Running)) "svc" []).2 ∧
    (windows.managerEnv none (some (GoError.errno 1062)) (fun _ => windows.Stopped)).query 0
      = Except.ok windows.Stopped ∧
    (windows.Stop (windows.managerEnv none (some (GoError.errno 1062))
      (fun _ => windows.Stopped)) 402 1000 "svc" []).1 =
        windows.Progress.returned (some (GoError.errno 1062)) ∧
    windows.Call.controlStop ∈ (windows.Stop (windows.managerEnv none
      (some (GoError.errno 1062)) (fun _ => windows.Stopped)) 402 1000 "svc" []).2 :=
  ⟨rfl, by decide, by decide, rfl, by decide, by decide⟩

/-- C3 as amended: on the unit-file backend, for an installed service and an authorized
caller, Start returns `ErrAlreadyRunning` when the probe reports running and Stop
returns `ErrAlreadyStopped` when it reports not running, and the last host call is then
the status probe (no `systemctl start` or `stop`).  On the control-manager backend
Start and Stop consult no probe: for a service that can be opened, Start issues the
start call and returns its result, and Stop issues the stop control request right
after opening the service. -/
theorem start_stop_state_guards (env : linux.Env) (name : String) (w : linux.World)
    (hinst : (linux.isInstalled name w).1 = true)
    (hauth : (linux.checkPrivileges env w).1.1 = true) :
    ((linux.isRunning env name w).1 = true →
      linux.Start env name w = (some linux.ErrAlreadyRunning,
        ((w.log (linux.Call.stat (linux.servicePath name))).log
          (linux.Call.exec "id" ["-g"])).log
          (linux.Call.exec "systemctl" ["--lines=0", "status", name ++ ".service"]))) ∧
    ((linux.isRunning env name w).1 = false →
      linux.Stop env name w = (some linux.ErrAlreadyStopped,
        ((w.log (linux.Call.stat (linux.servicePath name))).log
          (linux.Call.exec "id" ["-g"])).log
          (linux.Call.exec "systemctl" ["--lines=0", "status", name ++ ".service"]))) ∧
    (∀ (wenv : windows.Env) (log : List windows.Call),
      wenv.connect = none → wenv.openService name = none →
      windows.Start wenv name log = (wenv.start,
        log ++ [windows.Call.connect, windows.Call.openService name, windows.Call.start,
          windows.Call.closeService, windows.Call.disconnect]) ∧
      ∀ deadline fuel, ∃ rest, (windows.Stop wenv deadline fuel name log).2 =
        log ++ [windows.Call.connect, windows.Call.openService name,
          windows.Call.controlStop] ++ rest) := by
  simp only [linux.isInstalled] at hinst
  have hg : (linux.checkPrivilegesOf (env.exec "id" ["-g"])).1 = true := hauth
  refine ⟨?_, ?_, ?_⟩
  · intro hr
    simp only [linux.isRunning] at hr
    cases hx : env.exec "systemctl" ["--lines=0", "status", name ++ ".service"] with
    | error e => simp [hx] at hr
    | ok out =>
      simp only [hx] at hr
      simp [linux.Start, linux.isInstalled, hinst, linux.checkPrivileges, hg, linux.isRunning,
        hx, hr]
  · intro hr
    simp only [linux.isRunning] at hr
    cases hx : env.exec "systemctl" ["--lines=0", "status", name ++ ".service"] with
    | error e =>
      simp [linux.Stop, linux.isInstalled, hinst, linux.checkPrivileges, hg, linux.isRunning,
        hx]
    | ok out =>
      simp only [hx] at hr
      simp [linux.Stop, linux.isInstalled, hinst, linux.checkPrivileges, hg, linux.isRunning,
        hx, hr]
  · intro wenv log hc ho
    refine ⟨by simp [windows.Start, hc, ho], ?_⟩
    intro deadline fuel
    simp only [windows.Stop, hc, ho]
    cases hx : wenv.control with
    | error e => exact ⟨[windows.Call.closeService, windows.Call.disconnect], by simp⟩
    | ok st =>
      obtain ⟨rest, hr⟩ := stopWait_log wenv deadline fuel 0 0 st
        (log ++ [windows.Call.connect] ++ [windows.Call.openService name] ++
          [windows.Call.controlStop])
      simp only
      generalize windows.stopWait _ _ _ _ _ _ _ = r at hr ⊢
      obtain ⟨p, l⟩ := r
      simp only at hr
      subst hr
      cases p with
      | returned x =>
        exact ⟨rest ++ [windows.Call.closeService, windows.Call.disconnect], by simp⟩
      | looping => exact ⟨rest, by simp⟩

/-- C3 as amended, for an installed service `svc` and a caller in group 0: once with a
status output that shows an active service (Start is refused), once with one that shows
an inactive service (Stop is refused). -/
theorem start_stop_state_guards_witness :
    ((linux.isInstalled "svc" ⟨[("/etc/systemd/system/svc.service", "[Unit]\n")], []⟩).1
        = true ∧
      (linux.checkPrivileges (linux.hostEnv "0\n" [] "Active: active (running)")
        ⟨[("/etc/systemd/system/svc.service", "[Unit]\n")], []⟩).1.1 = true ∧
      (linux.Start (linux.hostEnv "0\n" [] "Active: active (running)") "svc"
        ⟨[("/etc/systemd/system/svc.service", "[Unit]\n")], []⟩).1 =
          some linux.ErrAlreadyRunning) ∧
    (linux.Stop (linux.hostEnv "0\n" [] "Active: inactive (dead)") "svc"
      ⟨[("/etc/systemd/system/svc.service", "[Unit]\n")], []⟩).1 =
        some linux.ErrAlreadyStopped :=
  ⟨⟨by decide, by decide,
      congrArg Prod.fst ((start_stop_state_guards
        (linux.hostEnv "0\n" [] "Active: active (running)") "svc"
        ⟨[("/etc/systemd/system/svc.service", "[Unit]\n")], []⟩
        (by decide) (by decide)).1 (by decide))⟩,
    congrArg Prod.fst ((start_stop_state_guards
      (linux.hostEnv "0\n" [] "Active: inactive (dead)") "svc"
      ⟨[("/etc/systemd/system/svc.service", "[Unit]\n")], []⟩
      (by decide) (by decide)).2.1 (by decide))⟩

/-! ## Status on the control-manager backend -/

/-- C8: on the control-manager backend, once the manager connection succeeded, Status
returns `uninstalled` with a nil error when opening the service fails with system error
1060, the error unchanged (with the empty string) for any other open failure and for a
query failure, and otherwise the rendering of the queried state with a nil error:
the seven named states render to their seven names and every other state value to
`unknown`.  A successful result is one of nine strings, and two different named states
never render to the same string. -/
theorem windows_status_mapping (env : windows.Env) (name : String) (log : List windows.Call)
    (hconn : env.connect = none) :
    (env.openService name = some (GoError.errno 1060) →
      (windows.Status env name log).1 = ("uninstalled", none)) ∧
    (∀ err, env.openService name = some err → err ≠ GoError.errno 1060 →
      (windows.Status env name log).1 = ("", some err)) ∧
    (∀ err, env.openService name = none → env.query 0 = Except.error err →
      (windows.Status env name log).1 = ("", some err)) ∧
    (∀ st, env.openService name = none → env.query 0 = Except.ok st →
      (windows.Status env name log).1 = (windows.stateString st, none)) ∧
    (windows.stateString windows.Stopped = "stopped" ∧
      windows.stateString windows.StartPending = "start pending" ∧
      windows.stateString windows.StopPending = "stop pending" ∧
      windows.stateString windows.Running = "running" ∧
      windows.stateString windows.ContinuePending = "continue pending" ∧
      windows.stateString windows.PausePending = "pause pending" ∧
      windows.stateString windows.Paused = "paused") ∧
    (∀ st : windows.State, st ≠ windows.Stopped → st ≠ windows.StartPending →
      st ≠ windows.StopPending → st ≠ windows.Running → st ≠ windows.ContinuePending →
      st ≠ windows.PausePending → st ≠ windows.Paused →
      windows.stateString st = "unknown") ∧
    ((windows.Status env name log).1.2 = none →
      (windows.Status env name log).1.1 ∈
        ["uninstalled", "stopped", "start pending", "stop pending", "running",
          "continue pending", "pause pending", "paused", "unknown"]) ∧
    (∀ a b : windows.State, 1 ≤ a → a ≤ 7 → 1 ≤ b → b ≤ 7 →
      windows.stateString a = windows.stateString b → a = b) := by
  refine ⟨?_, ?_, ?_, ?_, by decide, ?_, ?_, ?_⟩
  · intro h
    simp [windows.Status, hconn, h]
  · intro err h hne
    cases err with
    | errno code =>
      have : code ≠ 1060 := fun e => hne (by rw [e])
      simp [windows.Status, hconn, h, this]
    | errorString m => simp [windows.Status, hconn, h]
    | sys m => simp [windows.Status, hconn, h]
  · intro err h hq
    simp [windows.Status, hconn, h, hq]
  · intro st h hq
    simp [windows.Status, hconn, h, hq]
  · intro st h1 h2 h3 h4 h5 h6 h7
    simp [windows.stateString, h1, h2, h3, h4, h5, h6, h7]
  · intro hnil
    revert hnil
    simp only [windows.Status, hconn]
    cases ho : env.openService name with
    | some err =>
      cases err with
      | errno code =>
        by_cases hc : code = 1060 <;> simp [hc]
      | errorString m => simp
      | sys m => simp
    | none =>
      cases hq : env.query 0 with
      | error e => simp
      | ok st =>
        simp only [forall_true_left]
        unfold windows.stateString
        split_ifs <;> simp
  · intro a b ha1 ha7 hb1 hb7
    interval_cases a <;> interval_cases b <;> decide

/-- C8 for a manager that does not know the service (system error 1060) and for one
whose service is pause-pending. -/
theorem windows_status_mapping_witness :
    ((windows.managerEnv (some (GoError.errno 1060)) none (fun _ => 0)).connect = none ∧
      (windows.Status (windows.managerEnv (some (GoError.errno 1060)) none (fun _ => 0))
        "svc" []).1 = ("uninstalled", none)) ∧
    (windows.Status (windows.managerEnv none none (fun _ => windows.PausePending))
      "svc" []).1 = ("pause pending", none) :=
  ⟨⟨rfl, (windows_status_mapping
      (windows.managerEnv (some (GoError.errno 1060)) none (fun _ => 0)) "svc" [] rfl).1 rfl⟩,
    (windows_status_mapping (windows.managerEnv none none (fun _ => windows.PausePending))
      "svc" [] rfl).2.2.2.1 windows.PausePending rfl rfl⟩

/-! ## The argument list of Install on the control-manager backend -/

theorem splitLoop_length (sep : Char) (cs cur : List Char) :
    (splitLoop sep cs cur).length = cs.count sep + 1 := by
  induction cs generalizing cur with
  | nil => simp [splitLoop]
  | cons c cs ih =>
    unfold splitLoop
    by_cases h : c = sep
    · subst h
      simp [ih]
    · have h2 : ¬ ((c == sep) = true) := by simpa using h
      simp [h, ih, List.count_cons, h2]

theorem splitLoop_no_sep (sep : Char) (cs cur : List Char) (hcur : sep ∉ cur) :
    ∀ a ∈ splitLoop sep cs cur, sep ∉ a.data := by
  induction cs generalizing cur with
  | nil => simp [splitLoop, hcur]
  | cons c cs ih =>
    unfold splitLoop
    by_cases h : c = sep
    · simp only [h, if_true, List.mem_cons, forall_eq_or_imp]
      exact ⟨by simpa using hcur, ih [] (by simp)⟩
    · simp only [h, if_false]
      exact ih (c :: cur) (by
        simp only [List.mem_cons, not_or]
        exact ⟨fun e => h e.symm, hcur⟩)

theorem splitLoop_ne_nil (sep : Char) (cs cur : List Char) : splitLoop sep cs cur ≠ [] := by
  cases cs with
  | nil => simp [splitLoop]
  | cons c cs =>
    unfold splitLoop
    by_cases h : c = sep
    · simp [h]
    · simp only [h, if_false]
      exact splitLoop_ne_nil sep cs (c :: cur)

theorem Join_cons (a : String) (l : List String) (sep : String) (hl : l ≠ []) :
    Join (a :: l) sep = a ++ sep ++ Join l sep := by
  cases l with
  | nil => exact absurd rfl hl
  | cons b rest => rfl

theorem Join_splitLoop (sep : Char) (cs cur : List Char) :
    Join (splitLoop sep cs cur) (String.singleton sep) = String.mk (cur.reverse ++ cs) := by
  induction cs generalizing cur with
  | nil => simp [splitLoop, Join]
  | cons c cs ih =>
    unfold splitLoop
    by_cases h : c = sep
    · subst h
      simp only [if_true]
      rw [Join_cons _ _ _ (splitLoop_ne_nil _ _ _), ih []]
      apply String.ext
      simp [String.data_append, String.singleton]
    · simp only [h, if_false]
      rw [ih (c :: cur)]
      simp

/-- C10: on the control-manager backend, when Install reaches service creation (the
manager is connected and the service cannot be opened), the argument list given to
`CreateService` is `Args` cut at every space: it has one element more than `Args` has
spaces, no element contains a space, and joining the elements with single spaces gives
`Args` back.  An empty `Args` gives the list of one empty string, leading, trailing and
doubled spaces give empty strings, whereas the unit-file backend writes the executable
alone when `Args` is empty. -/
theorem windows_install_args (env : windows.Env) (params : InstallParams)
    (log : List windows.Call) (err : GoError)
    (hconn : env.connect = none)
    (hopen : env.openService params.Name = some err) :
    windows.Call.createService params.Name params.Executable
        { DisplayName := params.DispName, Description := params.Description, StartType := 2 }
        (Split params.Args ' ') ∈ (windows.Install env params log).2 ∧
    (Split params.Args ' ').length = params.Args.data.count ' ' + 1 ∧
    (∀ a ∈ Split params.Args ' ', ' ' ∉ a.data) ∧
    Join (Split params.Args ' ') " " = params.Args ∧
    Split "" ' ' = [""] ∧
    Split " a  b " ' ' = ["", "a", "", "b", ""] ∧
    (params.Args = "" → linux.installCmd params = params.Executable) := by
  refine ⟨?_, splitLoop_length _ _ _, splitLoop_no_sep _ _ _ (by simp), ?_, by decide,
    by decide, ?_⟩
  · cases hc : env.createService params.Name params.Executable
        { DisplayName := params.DispName, Description := params.Description, StartType := 2 }
        (Split params.Args ' ') <;>
      simp [windows.Install, hconn, hopen, hc]
  · have := Join_splitLoop ' ' params.Args.data []
    simpa [Split] using this
  · intro h
    simp [linux.installCmd, h]

/-- C10 for a service that the manager does not know yet, with the arguments
`-p 80`. -/
theorem windows_install_args_witness :
    (windows.managerEnv (some (GoError.errno 1060)) none (fun _ => 0)).connect = none ∧
    (windows.managerEnv (some (GoError.errno 1060)) none (fun _ => 0)).openService "svc" =
      some (GoError.errno 1060) ∧
    windows.Call.createService "svc" "app.exe"
        { DisplayName := "Service", Description := "demo", StartType := 2 }
        (Split "-p 80" ' ') ∈
      (windows.Install (windows.managerEnv (some (GoError.errno 1060)) none (fun _ => 0))
        ⟨"svc", "app.exe", "-p 80", "Service", "demo"⟩ []).2 ∧
    Join (Split "-p 80" ' ') " " = "-p 80" :=
  ⟨rfl, rfl,
    (windows_install_args (windows.managerEnv (some (GoError.errno 1060)) none (fun _ => 0))
      ⟨"svc", "app.exe", "-p 80", "Service", "demo"⟩ [] (GoError.errno 1060) rfl rfl).1,
    (windows_install_args (windows.managerEnv (some (GoError.errno 1060)) none (fun _ => 0))
      ⟨"svc", "app.exe", "-p 80", "Service", "demo"⟩ [] (GoError.errno 1060) rfl
      rfl).2.2.2.1⟩

end svcapp
